import Mathlib

/- Shallow embedding of the two core components of the portal2-cm-boards
repository: the leaderboard diff cache (backend/src/stages/exporting.rs,
function cache_leaderboard) and the dynamic changelog query composer
(server/src/controllers/changelog.rs, function build_filtered_changelog,
together with Users::check_board_name from server/src/controllers/users.rs).

Conventions of the embedding:
- Rust functions become Lean functions; the filesystem cache behind
  cache_leaderboard becomes an explicit store of type Int → Option String
  (the file ./cache/{id}.cache holds the stored text for key id, and the
  path is injective in id).
- A Rust panic (out-of-bounds indexing such as split[2], or indexing an
  empty vector) is modelled as the Option value none; an anyhow bail is
  modelled as Except.error.
- Rust str::split with a non-empty pattern is modelled by splitStr below,
  which walks the character list left to right, cutting at each
  non-overlapping occurrence of the separator.
- The database behind the query composer is abstracted: the User Lookup
  collaborator becomes a function argument String → Option (List String)
  standing for the Ok payload of Users::check_board_name, whose own
  post-query logic (empty result ↦ None) is embedded as check_board_name.
-/

/-! ## Rust str::split, embedded over character lists -/

/-- If the separator (first list) is a leading segment of the text (second
list), return the text that remains after it; otherwise none. -/
def chopSep : List Char → List Char → Option (List Char)
  | [], xs => some xs
  | _ :: _, [] => none
  | s :: ss, x :: xs => if s = x then chopSep ss xs else none

/-- Worker for splitting: scans the text, cutting at each non-overlapping
occurrence of the separator, accumulating the current piece reversed. The
fuel argument makes the recursion structural; it is initialised to the text
length, which suffices because every step consumes at least one character. -/
def splitGo (sep : List Char) : Nat → List Char → List Char → List (List Char)
  | _, [], acc => [acc.reverse]
  | 0, xs, acc => [acc.reverse ++ xs]
  | fuel + 1, x :: xs, acc =>
    match chopSep sep (x :: xs) with
    | some rest => acc.reverse :: splitGo sep fuel rest []
    | none => splitGo sep fuel xs (x :: acc)

/-- Split a character list at every non-overlapping occurrence of the
separator, as Rust str::split does for a non-empty pattern. -/
def splitChars (sep xs : List Char) : List (List Char) :=
  splitGo sep xs.length xs []

/-- Rust text.split(sep).collect::<Vec<&str>>() for a non-empty sep. -/
def splitStr (text sep : String) : List String :=
  (splitChars sep.data text.data).map String.mk

/-! ## Diff cache: backend/src/stages/exporting.rs -/

/-- The canonicalization step of cache_leaderboard (exporting.rs lines
27-29): let split = text.split("totalLeaderboardEntries").collect();
format!("{}-{}", split[0], split[2]). Indexing split[2] panics (modelled as
none) whenever the volatile label occurs fewer than two times in the text,
including whenever it is absent. -/
def format_text (text : String) : Option String :=
  let split := splitStr text "totalLeaderboardEntries"
  match split.get? 2 with
  | some s2 => some (split.headD "" ++ "-" ++ s2)
  | none => none

/-- Writing a text to the cache file of a key: the store after
File::create + write_all on ./cache/{id}.cache. -/
def storePut (store : Int → Option String) (id : Int) (v : String) :
    Int → Option String :=
  fun k => if k = id then some v else store k

/-- cache_leaderboard (exporting.rs lines 8-40) as a state-passing function.
If no cache file exists for the id, the raw snapshot text is written and
true is returned. Otherwise the snapshot is canonicalized by format_text
(none = the split[2] panic), compared byte-for-byte with the stored text,
and on a mismatch the canonical text overwrites the file. The returned pair
is (changed flag, store after the call). -/
def cache_leaderboard (store : Int → Option String) (id : Int) (text : String) :
    Option (Bool × (Int → Option String)) :=
  match store id with
  | none => some (true, storePut store id text)
  | some cache_contents =>
    match format_text text with
    | none => none
    | some ft =>
      if ft = cache_contents then some (false, store)
      else some (true, storePut store id ft)

/-! ## Query composer: server/src/controllers/changelog.rs -/

/-- The parameter struct consumed by build_filtered_changelog, with the
fields listed in the Default impl (changelog.rs lines 283-299). Numeric
fields are modelled as Int. -/
structure ChangelogQueryParams where
  limit : Option Int
  nick_name : Option String
  profile_number : Option String
  chamber : Option String
  sp : Option Bool
  coop : Option Bool
  wr_gain : Option Bool
  has_demo : Option Bool
  yt : Option Bool
  first : Option Int
  last : Option Int

/-- impl Default for ChangelogQueryParams (changelog.rs lines 283-299). -/
def ChangelogQueryParams.default : ChangelogQueryParams :=
  { limit := some 200
    nick_name := none
    profile_number := none
    chamber := none
    sp := some true
    coop := some true
    wr_gain := none
    has_demo := none
    yt := none
    first := none
    last := none }

/-- The fixed SELECT/JOIN text that build_filtered_changelog starts from
(changelog.rs lines 179-195), verbatim. -/
def base_query : String :=
  " \n        SELECT cl.id, cl.timestamp, cl.profile_number, cl.score, cl.map_id, cl.demo_id, cl.banned, \n        cl.youtube_id, cl.previous_id, cl.coop_id, cl.post_rank, cl.pre_rank, cl.submission, cl.note,\n        cl.category_id, cl.score_delta, cl.verified, cl.admin_note, map.name AS map_name,  \n        CASE\n            WHEN u.board_name IS NULL\n                THEN u.steam_name\n            WHEN u.board_name IS NOT NULL\n                THEN u.board_name\n        END user_name, u.avatar\n        FROM \"p2boards\".changelog AS cl\n        INNER JOIN \"p2boards\".users AS u ON (u.profile_number = cl.profile_number)\n        INNER JOIN \"p2boards\".maps AS map ON (map.steam_id = cl.map_id)\n        INNER JOIN \"p2boards\".chapters AS chapter on (map.chapter_id = chapter.id)\n    "

/-- The mode filter pushes of build_filtered_changelog (changelog.rs lines
197-205): the coop flag is inspected first; only when coop is present and
true is the sp flag consulted at all. -/
def mode_filters (coop sp : Option Bool) : List String :=
  match coop with
  | some c =>
    if !c then ["chapter.is_multiplayer = False\n"]
    else
      match sp with
      | some s => if !s then ["chapter.is_multiplayer = True\n"] else []
      | none => []
  | none => []

/-- The filter pushes of changelog.rs lines 197-227 in source order: mode
(coop/sp), has_demo, yt, wr_gain, chamber. Each Some field contributes its
predicate text exactly as the source formats it; wr_gain contributes only
when true. -/
def pre_filters (params : ChangelogQueryParams) : List String :=
  mode_filters params.coop params.sp
  ++ (match params.has_demo with
      | some has_demo =>
        if has_demo then ["cl.demo_id IS NOT NULL\n"] else ["cl.demo_id IS NULL\n"]
      | none => [])
  ++ (match params.yt with
      | some yt => if yt then ["cl.youtube_id IS NOT NULL\n"] else ["cl.youtube_id IS NULL\n"]
      | none => [])
  ++ (match params.wr_gain with
      | some wr_gain => if wr_gain then ["cl.post_rank = 1\n"] else []
      | none => [])
  ++ (match params.chamber with
      | some chamber => ["cl.map_id = '" ++ chamber ++ "'\n"]
      | none => [])

/-- The multi-candidate nickname predicate of changelog.rs lines 240-250:
an opening parenthesis and the first candidate's equality check, then one
OR-ed equality check appended per remaining candidate (the for loop of
push_str calls, a left fold), then a closing parenthesis. -/
def multi_user_filter (p : String) (rest : List String) : String :=
  (List.foldl (fun acc num => acc ++ " OR cl.profile_number = '" ++ num ++ "'\n")
    ("(cl.profile_number = '" ++ p ++ "'\n") rest) ++ ")"

/-- The post-query logic of Users::check_board_name (users.rs lines 39-61):
an empty result list is reported as None, a non-empty one as Some. The
argument stands for the rows returned by the LIKE query. -/
def check_board_name (res : List String) : Option (List String) :=
  if res.isEmpty then none else some res

/-- The user filter push of changelog.rs lines 228-255: profile_number
takes precedence over nick_name; a nickname is resolved through the lookup
collaborator (Users::check_board_name). A None lookup result is the bail
with the "No users found" message; a Some [] result would hit the
profile_numbers[0] indexing panic of the source (modelled as none), which
check_board_name never produces. -/
def user_filters (lookup : String → Option (List String))
    (params : ChangelogQueryParams) : Option (Except String (List String)) :=
  match params.profile_number with
  | some profile_number =>
    some (Except.ok ["cl.profile_number = " ++ profile_number ++ "\n"])
  | none =>
    match params.nick_name with
    | some nick_name =>
      match lookup nick_name with
      | some [] => none
      | some [p] => some (Except.ok ["cl.profile_number = '" ++ p ++ "'\n"])
      | some (p :: rest) => some (Except.ok [multi_user_filter p rest])
      | none => some (Except.error "No users found with specified username pattern.")
    | none => some (Except.ok [])

/-- The cursor filter push of changelog.rs lines 256-260: first is tested
before last in an if / else if, so when both are set only first
contributes, a strict greater-than bound; last alone contributes a strict
less-than bound. -/
def cursor_filters (params : ChangelogQueryParams) : List String :=
  match params.first with
  | some first => ["cl.id > " ++ toString first ++ "\n"]
  | none =>
    match params.last with
    | some last => ["cl.id < " ++ toString last ++ "\n"]
    | none => []

/-- The rendering loop of changelog.rs lines 265-271: the filter at index 0
is attached with WHERE, every later one with AND. -/
def render_filters (query_string : String) : List String → String
  | [] => query_string
  | entry :: rest =>
    List.foldl (fun qs e => qs ++ " AND " ++ e) (query_string ++ " WHERE " ++ entry) rest

/-- The tail of build_filtered_changelog (changelog.rs lines 273-279): the
fixed ORDER BY clause, then LIMIT with the given limit, or LIMIT 200 when
the limit field is absent. -/
def finish_query (limit : Option Int) (query_string : String) : String :=
  let qs := query_string ++ " ORDER BY cl.timestamp DESC NULLS LAST\n"
  match limit with
  | some l => qs ++ " LIMIT " ++ toString l ++ "\n"
  | none => qs ++ " LIMIT 200\n"

/-- build_filtered_changelog (changelog.rs lines 178-281). The filter list
is assembled in source order (mode, has_demo, yt, wr_gain, chamber, user,
cursor, then the caller-supplied additional filters), rendered onto the
base query with WHERE/AND, and closed with ORDER BY and LIMIT. The outer
Option is the panic case inherited from user_filters; the Except is the
zero-candidate bail. The result is the full query text: every filter value
sits inside the string itself, and no bound-parameter list accompanies it
(ChangelogPage::get_changelog_page, changelog.rs lines 154-175, runs the
returned text with no bind calls). -/
def build_filtered_changelog (lookup : String → Option (List String))
    (params : ChangelogQueryParams) (additional_filters : Option (List String)) :
    Option (Except String String) :=
  (user_filters lookup params).map <| Except.map fun uf =>
    let filters := pre_filters params ++ uf ++ cursor_filters params
      ++ additional_filters.getD []
    finish_query params.limit (render_filters base_query filters)

/-! ## Concrete snapshot texts used in counterexamples and witnesses -/

/-- A snapshot text in which the volatile label occurs twice, so that
format_text succeeds; its canonical form is "x-z". -/
def tTwice : String := "xtotalLeaderboardEntriesytotalLeaderboardEntriesz"

/-- Snapshot A of the end-to-end diff-cache example in the spec. -/
def snapA : String := "a=1,totalLeaderboardEntries=500,b=2"

/-- Snapshot B of that example: same text except the volatile value. -/
def snapB : String := "a=1,totalLeaderboardEntries=501,b=2"

/-! ## C1: the diff-cache decision table -/

/-- C1 counterexample: on a key with no prior entry, cache_leaderboard
persists the raw snapshot text and not the canonical text the claim
requires: the stored value is the full text tTwice while the canonical
form of tTwice is the distinct string "x-z". -/
theorem cache_miss_stores_raw_cex :
    ((cache_leaderboard (fun _ => none) 1 tTwice).map fun r => (r.1, r.2 1))
        = some (true, some tTwice)
    ∧ format_text tTwice = some "x-z"
    ∧ tTwice ≠ "x-z" :=
  ⟨by decide, by decide, by decide⟩

/-- C1 (amended): the decision table of cache_leaderboard. With no prior
entry for the key, the RAW snapshot text (not the canonical text) is
persisted and changed=true is reported. With a prior entry, provided the
snapshot is canonicalizable (the volatile label occurs at least twice, so
format_text succeeds): a canonical text byte-identical to the stored entry
reports changed=false with no write, and a differing canonical text
overwrites the stored entry with the new canonical text and reports
changed=true. -/
theorem cache_decision_table (store : Int → Option String) (id : Int)
    (text prior ft : String) :
    (store id = none →
      cache_leaderboard store id text = some (true, storePut store id text))
    ∧ (store id = some prior → format_text text = some ft → ft = prior →
      cache_leaderboard store id text = some (false, store))
    ∧ (store id = some prior → format_text text = some ft → ft ≠ prior →
      cache_leaderboard store id text = some (true, storePut store id ft)) := by
  refine ⟨fun h => ?_, fun h hft heq => ?_, fun h hft hne => ?_⟩
  · simp [cache_leaderboard, h]
  · subst heq; simp [cache_leaderboard, h, hft]
  · simp [cache_leaderboard, h, hft, hne]

/-- Witness for cache_decision_table: all three branches evaluated on
concrete stores and texts. -/
theorem cache_decision_table_witness :
    cache_leaderboard (fun _ => none) 7 "t" = some (true, storePut (fun _ => none) 7 "t")
    ∧ cache_leaderboard (fun _ => some "x-z") 7 tTwice = some (false, fun _ => some "x-z")
    ∧ cache_leaderboard (fun _ => some "q") 7 tTwice
        = some (true, storePut (fun _ => some "q") 7 "x-z") :=
  ⟨(cache_decision_table (fun _ => none) 7 "t" "p" "f").1 rfl,
   (cache_decision_table (fun _ => some "x-z") 7 tTwice "x-z" "x-z").2.1 rfl (by decide) rfl,
   (cache_decision_table (fun _ => some "q") 7 tTwice "q" "x-z").2.2 rfl (by decide) (by decide)⟩

/-! ## C2: snapshots lacking the volatile label -/

/-- C2 counterexample: with a prior entry for the key, a snapshot text that
lacks the volatile label makes cache_leaderboard fail (the split[2]
indexing panic) rather than comparing the raw text; here the raw text even
equals the stored entry, so graceful raw-text comparison would have
reported changed=false. The second conjunct records that the label indeed
does not occur: the split leaves the text in one piece. -/
theorem malformed_snapshot_cex :
    cache_leaderboard (fun k => if k = 1 then some "ab" else none) 1 "ab" = none
    ∧ splitStr "ab" "totalLeaderboardEntries" = ["ab"] :=
  ⟨rfl, by decide⟩

/-- C2 (amended): a snapshot whose canonicalization fails (format_text
returns none, which is the case whenever the volatile label occurs fewer
than two times and in particular whenever it is absent) completes normally
only when no prior entry exists for the key, in which case the raw text is
persisted with changed=true; when a prior entry exists the call fails at
the canonicalization step instead of degrading to raw-text comparison. -/
theorem malformed_snapshot_behavior (store : Int → Option String) (id : Int)
    (text : String) (hft : format_text text = none) :
    cache_leaderboard store id text =
      if (store id).isNone then some (true, storePut store id text) else none := by
  cases h : store id <;> simp [cache_leaderboard, h, hft]

/-- Witness for malformed_snapshot_behavior at a concrete store and text. -/
theorem malformed_snapshot_behavior_witness :
    cache_leaderboard (fun _ => none) 3 "ab" = some (true, storePut (fun _ => none) 3 "ab") := by
  have h := malformed_snapshot_behavior (fun _ => none) 3 "ab" (by decide)
  simpa using h

/-! ## C3: idempotence and noise-insensitivity -/

/-- C3 counterexample: the end-to-end example of the claim itself. The
first call on an empty cache reports changed=true, but the second call
with the noise-equivalent snapshot does not report changed=false: it fails,
because canonicalization indexes split[2] and the volatile label occurs
only once in these snapshots. -/
theorem cache_idempotence_cex :
    ((cache_leaderboard (fun _ => none) 1 snapA).map Prod.fst = some true)
    ∧ (((cache_leaderboard (fun _ => none) 1 snapA).bind fun r =>
        cache_leaderboard r.2 1 snapB) = none) :=
  ⟨by decide, rfl⟩

/-- C3 (amended): for snapshots whose canonical form is defined and equal
across calls, a fresh key yields changed=true on the first call, again
changed=true on the second call (the stored raw text differs from the
canonical text being compared), and only the third call reports
changed=false, the second call having overwritten the entry with the
canonical text. -/
theorem cache_repeat_behavior (id : Int) (t1 t2 t3 c : String)
    (h2 : format_text t2 = some c) (h3 : format_text t3 = some c) (hne : c ≠ t1) :
    ((cache_leaderboard (fun _ => none) id t1).map Prod.fst = some true)
    ∧ (((cache_leaderboard (fun _ => none) id t1).bind fun r =>
          cache_leaderboard r.2 id t2).map Prod.fst = some true)
    ∧ ((((cache_leaderboard (fun _ => none) id t1).bind fun r =>
          cache_leaderboard r.2 id t2).bind fun r =>
          cache_leaderboard r.2 id t3).map Prod.fst = some false) := by
  simp [cache_leaderboard, storePut, h2, h3, hne]

/-- Witness for cache_repeat_behavior: three calls with the same concrete
canonicalizable snapshot. -/
theorem cache_repeat_behavior_witness :
    ((cache_leaderboard (fun _ => none) 1 tTwice).map Prod.fst = some true)
    ∧ (((cache_leaderboard (fun _ => none) 1 tTwice).bind fun r =>
          cache_leaderboard r.2 1 tTwice).map Prod.fst = some true)
    ∧ ((((cache_leaderboard (fun _ => none) 1 tTwice).bind fun r =>
          cache_leaderboard r.2 1 tTwice).bind fun r =>
          cache_leaderboard r.2 1 tTwice).map Prod.fst = some false) :=
  cache_repeat_behavior 1 tTwice tTwice tTwice "x-z" (by decide) (by decide) (by decide)

/-! ## String folding helpers -/

/-- A left fold of appends starting from s equals s followed by the fold
started from the empty string. -/
theorem foldl_append_shift (l : List String) (s : String) :
    List.foldl (· ++ ·) s l = s ++ List.foldl (· ++ ·) "" l := by
  induction l generalizing s with
  | nil => simp
  | cons a l ih =>
    rw [List.foldl, List.foldl, ih (s ++ a), ih ("" ++ a), String.empty_append]
    rw [String.append_assoc]

/-- String.join unfolds one element at a time. -/
theorem join_cons (a : String) (l : List String) :
    String.join (a :: l) = a ++ String.join l := by
  simp only [String.join, List.foldl]
  rw [foldl_append_shift l ("" ++ a), String.empty_append]

/-- A left fold that appends g of each element equals the start string
followed by the join of the mapped list. -/
theorem foldl_append_eq_join (g : String → String) (fs : List String) (s : String) :
    List.foldl (fun acc e => acc ++ g e) s fs = s ++ String.join (fs.map g) := by
  induction fs generalizing s with
  | nil => simp [String.join]
  | cons f fs ih =>
    rw [List.foldl, ih (s ++ g f), List.map, join_cons, String.append_assoc]

/-- The multi-candidate nickname predicate in closed form: one
parenthesized group whose inside is the first equality check followed by
the join of the OR-ed equality checks of the remaining candidates. -/
theorem multi_user_filter_eq (p : String) (rest : List String) :
    multi_user_filter p rest
      = "(cl.profile_number = '" ++ p ++ "'\n"
        ++ String.join (rest.map fun num => " OR cl.profile_number = '" ++ num ++ "'\n")
        ++ ")" := by
  have hstep : (fun (acc num : String) => acc ++ " OR cl.profile_number = '" ++ num ++ "'\n")
      = fun acc num => acc ++ (" OR cl.profile_number = '" ++ num ++ "'\n") := by
    funext a n
    simp [String.append_assoc]
  rw [multi_user_filter, hstep, foldl_append_eq_join]

/-! ## C4: cursor precedence and strictness -/

/-- C4: when both cursor fields are set, the composed query is the one
obtained with the cursorBefore field cleared (only cursorAfter is applied);
the cursorAfter filter is the strict greater-than predicate on the entry
identifier, and when cursorAfter is absent the cursorBefore filter is the
strict less-than predicate. -/
theorem cursor_precedence_strict (lookup : String → Option (List String))
    (af : Option (List String)) (lim : Option Int) (nn pn ch : Option String)
    (sp coop wr hd yt : Option Bool) (f l : Int) :
    build_filtered_changelog lookup
        ⟨lim, nn, pn, ch, sp, coop, wr, hd, yt, some f, some l⟩ af
      = build_filtered_changelog lookup
        ⟨lim, nn, pn, ch, sp, coop, wr, hd, yt, some f, none⟩ af
    ∧ cursor_filters ⟨lim, nn, pn, ch, sp, coop, wr, hd, yt, some f, some l⟩
        = ["cl.id > " ++ toString f ++ "\n"]
    ∧ cursor_filters ⟨lim, nn, pn, ch, sp, coop, wr, hd, yt, none, some l⟩
        = ["cl.id < " ++ toString l ++ "\n"] :=
  ⟨rfl, rfl, rfl⟩

/-! ## C5: predicate rendering -/

/-- C5: the first predicate group of a non-empty filter list is rendered
with the WHERE keyword and every later group is conjoined with AND; and a
nickname resolving to two or more candidates contributes one single
parenthesized group that internally disjoins the per-candidate equality
checks with OR. -/
theorem predicate_rendering (qs f : String) (fs : List String) (nick p q : String)
    (rest : List String) :
    render_filters qs (f :: fs)
      = qs ++ " WHERE " ++ f ++ String.join (fs.map fun e => " AND " ++ e)
    ∧ user_filters (fun _ => some (p :: q :: rest))
        ⟨none, some nick, none, none, none, none, none, none, none, none, none⟩
      = some (Except.ok ["(cl.profile_number = '" ++ p ++ "'\n"
          ++ String.join ((q :: rest).map fun num => " OR cl.profile_number = '" ++ num ++ "'\n")
          ++ ")"]) := by
  constructor
  · have hstep : (fun (acc e : String) => acc ++ " AND " ++ e)
        = fun acc e => acc ++ (" AND " ++ e) := by
      funext a e
      rw [String.append_assoc]
    simp only [render_filters, hstep, foldl_append_eq_join]
  · simp only [user_filters, multi_user_filter_eq]

/-! ## C6: zero nickname candidates -/

/-- C6: when the profile number is absent and the nickname is looked up
through Users::check_board_name against a database in which it matches no
user, build_filtered_changelog aborts with the "No users found" error: the
result is an error value, never an empty-but-successful query. -/
theorem nickname_zero_matches_error (db : String → List String)
    (af : Option (List String)) (nick : String) (lim : Option Int)
    (ch : Option String) (sp coop wr hd yt : Option Bool) (fi la : Option Int)
    (hz : db nick = []) :
    build_filtered_changelog (fun n => check_board_name (db n))
        ⟨lim, some nick, none, ch, sp, coop, wr, hd, yt, fi, la⟩ af
      = some (Except.error "No users found with specified username pattern.") := by
  simp [build_filtered_changelog, user_filters, check_board_name, Except.map, hz]

/-- Witness for nickname_zero_matches_error on a concrete empty database. -/
theorem nickname_zero_matches_error_witness :
    build_filtered_changelog (fun n => check_board_name ((fun _ => []) n))
        ⟨none, some "zz", none, none, none, none, none, none, none, none, none⟩ none
      = some (Except.error "No users found with specified username pattern.") :=
  nickname_zero_matches_error (fun _ => []) none "zz" none none none none none
    none none none none rfl

/-! ## C7: ordering clause and limit clause -/

/-- C7: every successfully composed query is some body followed by the
newest-first, nulls-last ORDER BY clause and then a LIMIT clause that is
always present: LIMIT 200 when the limit field is absent and LIMIT n when
the limit field is n. -/
theorem order_and_limit (lookup : String → Option (List String))
    (params : ChangelogQueryParams) (af : Option (List String)) (qs : String)
    (h : build_filtered_changelog lookup params af = some (Except.ok qs)) :
    ∃ body : String,
      (params.limit = none →
        qs = body ++ " ORDER BY cl.timestamp DESC NULLS LAST\n" ++ " LIMIT 200\n")
      ∧ ∀ l : Int, params.limit = some l →
        qs = body ++ " ORDER BY cl.timestamp DESC NULLS LAST\n"
          ++ " LIMIT " ++ toString l ++ "\n" := by
  unfold build_filtered_changelog at h
  cases hu : user_filters lookup params with
  | none => rw [hu] at h; simp at h
  | some r =>
    rw [hu] at h
    cases r with
    | error e => simp [Except.map] at h
    | ok uf =>
      simp only [Option.map_some', Except.map, Option.some.injEq, Except.ok.injEq] at h
      refine ⟨render_filters base_query
        (pre_filters params ++ uf ++ cursor_filters params ++ af.getD []), ?_, ?_⟩
      · intro hl
        rw [← h]
        simp [finish_query, hl]
      · intro l hl
        rw [← h]
        simp [finish_query, hl]

/-- Witness for order_and_limit: the empty filter specification, whose
composed query is the base text plus the ORDER BY and default LIMIT. -/
theorem order_and_limit_witness :
    ∃ body : String,
      ((none : Option Int) = none →
        base_query ++ " ORDER BY cl.timestamp DESC NULLS LAST\n" ++ " LIMIT 200\n"
          = body ++ " ORDER BY cl.timestamp DESC NULLS LAST\n" ++ " LIMIT 200\n")
      ∧ ∀ l : Int, (none : Option Int) = some l →
        base_query ++ " ORDER BY cl.timestamp DESC NULLS LAST\n" ++ " LIMIT 200\n"
          = body ++ " ORDER BY cl.timestamp DESC NULLS LAST\n"
            ++ " LIMIT " ++ toString l ++ "\n" :=
  order_and_limit (fun _ => none)
    ⟨none, none, none, none, none, none, none, none, none, none, none⟩ none
    (base_query ++ " ORDER BY cl.timestamp DESC NULLS LAST\n" ++ " LIMIT 200\n") rfl

/-! ## C8: mode derivation from the sp and coop booleans -/

/-- C8 counterexample: with coop absent and sp explicitly false, the code
emits no mode predicate at all (the claim requires a predicate excluding
single-player entries): the full composed query carries no WHERE clause. -/
theorem mode_sp_ignored_cex :
    build_filtered_changelog (fun _ => none)
        ⟨none, none, none, none, some false, none, none, none, none, none, none⟩ none
      = some (Except.ok (base_query ++ " ORDER BY cl.timestamp DESC NULLS LAST\n"
          ++ " LIMIT 200\n"))
    ∧ mode_filters none (some false) = [] :=
  ⟨rfl, rfl⟩

/-- C8 (amended): the mode predicate of the composed query is determined
as follows: coop=false emits the single predicate excluding co-op entries,
regardless of sp; coop=true together with sp=false emits the single
predicate excluding single-player entries; in every other case — both
flags true or absent, and in particular sp=false while coop is absent —
no mode predicate is emitted, because sp is only consulted when coop is
present and true. -/
theorem mode_derivation (coop sp : Option Bool) :
    mode_filters coop sp =
      if coop = some false then ["chapter.is_multiplayer = False\n"]
      else if coop = some true ∧ sp = some false then ["chapter.is_multiplayer = True\n"]
      else [] := by
  cases coop with
  | none => rfl
  | some c =>
    cases c with
    | false => rfl
    | true =>
      cases sp with
      | none => rfl
      | some s => cases s <;> rfl

/-! ## C9: interpolated values instead of bound parameters -/

/-- ChangelogPage::get_changelog_page (changelog.rs lines 154-175): builds
the query text with build_filtered_changelog (bailing on its error) and
hands the single resulting string to the record-store executor; the source
attaches no bind call, so the executor receives only the text. -/
def get_changelog_page (exec : String → Except String (List String))
    (lookup : String → Option (List String)) (params : ChangelogQueryParams) :
    Option (Except String (List String)) :=
  (build_filtered_changelog lookup params none).map fun q =>
    match q with
    | Except.error e => Except.error e
    | Except.ok query_string => exec query_string

/-- C9 counterexample: with the concrete map filter value X, the composed
query is a single text carrying the literal characters cl.map_id = 'X'
inside it; no bound-parameter list exists anywhere in the composition. -/
theorem interpolated_values_cex :
    build_filtered_changelog (fun _ => none)
        ⟨none, none, none, some "X", none, none, none, none, none, none, none⟩ none
      = some (Except.ok (base_query ++ " WHERE " ++ "cl.map_id = 'X'\n"
          ++ " ORDER BY cl.timestamp DESC NULLS LAST\n" ++ " LIMIT 200\n")) :=
  rfl

/-- C9 (amended): every filter value — map id, user id, cursor id — is
spliced verbatim as a literal into the query text; the composer returns
only that text, and get_changelog_page invokes the record-store executor
on exactly that text with no accompanying parameters. -/
theorem values_interpolated (c pn : String) (f : Int)
    (exec : String → Except String (List String)) :
    ∃ qs : String,
      build_filtered_changelog (fun _ => none)
          ⟨none, none, some pn, some c, none, none, none, none, none, some f, none⟩ none
        = some (Except.ok qs)
      ∧ qs = base_query ++ " WHERE " ++ ("cl.map_id = '" ++ c ++ "'\n")
          ++ " AND " ++ ("cl.profile_number = " ++ pn ++ "\n")
          ++ " AND " ++ ("cl.id > " ++ toString f ++ "\n")
          ++ " ORDER BY cl.timestamp DESC NULLS LAST\n" ++ " LIMIT 200\n"
      ∧ get_changelog_page exec (fun _ => none)
          ⟨none, none, some pn, some c, none, none, none, none, none, some f, none⟩
        = some (exec qs) :=
  ⟨_, rfl, rfl, rfl⟩

/-! ## C10: the first-place flag is two-state -/

/-- C10: setting wr_gain explicitly to false composes exactly the same
query as leaving it absent, for every surrounding filter specification;
wr_gain=true contributes the rank-after predicate, whereas has_demo and yt
contribute an IS NULL predicate when explicitly false. -/
theorem wr_gain_two_state (lookup : String → Option (List String))
    (af : Option (List String)) (lim : Option Int) (nn pn ch : Option String)
    (sp coop hd yt : Option Bool) (fi la : Option Int) :
    build_filtered_changelog lookup
        ⟨lim, nn, pn, ch, sp, coop, some false, hd, yt, fi, la⟩ af
      = build_filtered_changelog lookup
        ⟨lim, nn, pn, ch, sp, coop, none, hd, yt, fi, la⟩ af
    ∧ pre_filters ⟨none, none, none, none, none, none, some true, none, none, none, none⟩
        = ["cl.post_rank = 1\n"]
    ∧ pre_filters ⟨none, none, none, none, none, none, none, some false, none, none, none⟩
        = ["cl.demo_id IS NULL\n"]
    ∧ pre_filters ⟨none, none, none, none, none, none, none, none, some false, none, none⟩
        = ["cl.youtube_id IS NULL\n"] :=
  ⟨rfl, rfl, rfl, rfl⟩
